import Mathlib

/-!
Shallow embedding of the charmstream token-streaming validator
(`src/src/lib.rs`): the stream state model with its linear vesting
function, the transaction projector, and the CREATE/CLAIM transition
validator, together with proofs about the claims of the specification.

Machine integers: all Rust `u64` fields are modelled as `Nat`; the only
place where 64-bit width is observable in the source is
`u64::saturating_mul`, modelled by `satMul` which caps the product at
`2^64 - 1`. Rust `checked_sub` is modelled by `checkedSub` returning
`Option Nat`; Rust `saturating_sub` coincides with truncated `Nat`
subtraction.
-/

/-- The largest value representable in a Rust `u64`. -/
def U64_MAX : Nat := 2 ^ 64 - 1

/-- Rust `u64::saturating_mul`: the product, capped at `U64_MAX`. -/
def satMul (a b : Nat) : Nat := min (a * b) U64_MAX

/-- Rust `u64::checked_sub`: `some (a - b)` when `b ≤ a`, else `none`. -/
def checkedSub (a b : Nat) : Option Nat :=
  if b ≤ a then some (a - b) else none

/-- `StreamState` from `src/src/lib.rs`: the persistent application state of
one vesting stream. `beneficiary_dest` is the beneficiary's scriptPubKey,
modelled as a list of bytes (each a `Nat`). -/
structure StreamState where
  total_amount : Nat
  claimed_amount : Nat
  start_time : Nat
  end_time : Nat
  beneficiary_dest : List Nat
deriving Repr, DecidableEq

/-- `StreamState::vested_at` from the source: 0 before `start_time`,
`total_amount` from `end_time` on, and otherwise
`total_amount.saturating_mul(elapsed) / duration`. -/
def StreamState.vested_at (s : StreamState) (now : Nat) : Nat :=
  if now ≤ s.start_time then
    0
  else if s.end_time ≤ now then
    s.total_amount
  else
    let elapsed := now - s.start_time
    let duration := s.end_time - s.start_time
    satMul s.total_amount elapsed / duration

/-- `NativeOutput` from the charms SDK: an (amount, destination) pair of
native ledger value attached to one transaction input or output. -/
structure NativeOutput where
  amount : Nat
  dest : List Nat
deriving Repr, DecidableEq

/-- The transaction view consumed by the validator. Each entry of `ins` and
`outs` models the result of `stream_state_in_charms` at that position:
`some s` when the charms attached there decode to a `StreamState` for this
app, `none` otherwise (different application, wrong shape, or absent). The
`UtxoId` component of each input, which the validator never reads, is
omitted. `coin_ins`/`coin_outs` model the optional native-coin lists
`tx.coin_ins`/`tx.coin_outs`. -/
structure Transaction where
  ins : List (Option StreamState)
  outs : List (Option StreamState)
  coin_ins : Option (List NativeOutput)
  coin_outs : Option (List NativeOutput)
deriving Repr, DecidableEq

/-- `IndexedStreamState`: a stream state on an output, paired with its
original position among the transaction's outputs. -/
structure IndexedStreamState where
  state : StreamState
  index : Nat
deriving Repr, DecidableEq

/-- `IndexedInputStreamState`: a stream state on an input, paired with its
original position among the transaction's inputs. -/
structure IndexedInputStreamState where
  state : StreamState
  index : Nat
deriving Repr, DecidableEq

/-- `stream_states_in`: the projector over inputs — enumerate the input
positions, keep those that decode to a stream state, remembering the
original index. -/
def stream_states_in (tx : Transaction) : List IndexedInputStreamState :=
  tx.ins.enum.filterMap fun p =>
    p.2.map fun state => { state := state, index := p.1 }

/-- `stream_states_out`: the projector over outputs. -/
def stream_states_out (tx : Transaction) : List IndexedStreamState :=
  tx.outs.enum.filterMap fun p =>
    p.2.map fun state => { state := state, index := p.1 }

/-- `coin_outs_required`: the declared native-coin output list, required to
be present and to have exactly one entry per ledger output. -/
def coin_outs_required (tx : Transaction) : Option (List NativeOutput) :=
  match tx.coin_outs with
  | none => none
  | some coins => if coins.length = tx.outs.length then some coins else none

/-- `coin_ins_required`: the declared native-coin input list, required to be
present and to have exactly one entry per ledger input. -/
def coin_ins_required (tx : Transaction) : Option (List NativeOutput) :=
  match tx.coin_ins with
  | none => none
  | some coins => if coins.length = tx.ins.length then some coins else none

/-- `validate_create` from the source: the CREATE rule. -/
def validate_create (out : IndexedStreamState) (tx : Transaction) : Bool :=
  match coin_outs_required tx with
  | none => false
  | some coins =>
    if out.state.total_amount = 0 then false
    else if out.state.end_time ≤ out.state.start_time then false
    else if out.state.claimed_amount ≠ 0 then false
    else if out.state.beneficiary_dest = [] then false
    else
      match coins.get? out.index with
      | some stream_coin => decide (stream_coin.amount = out.state.total_amount)
      | none => false

/-- `validate_claim` from the source: the CLAIM rule, checked in source
order. -/
def validate_claim (prev : IndexedInputStreamState) (next : IndexedStreamState)
    (tx : Transaction) (now : Nat) : Bool :=
  if now < prev.state.start_time then false
  else if next.state.total_amount ≠ prev.state.total_amount then false
  else if next.state.start_time ≠ prev.state.start_time ∨
      next.state.end_time ≠ prev.state.end_time then false
  else if next.state.claimed_amount < prev.state.claimed_amount then false
  else if next.state.total_amount < next.state.claimed_amount then false
  else if prev.state.vested_at now < next.state.claimed_amount then false
  else if prev.state.beneficiary_dest ≠ next.state.beneficiary_dest then false
  else if next.state.beneficiary_dest = [] then false
  else
    match coin_ins_required tx with
    | none => false
    | some coin_ins =>
      match coin_outs_required tx with
      | none => false
      | some coins =>
        match checkedSub prev.state.total_amount prev.state.claimed_amount with
        | none => false
        | some prev_remaining =>
          match coin_ins.get? prev.index with
          | none => false
          | some native_in =>
            if native_in.amount ≠ prev_remaining then false
            else
              match checkedSub next.state.claimed_amount prev.state.claimed_amount with
              | none => false
              | some delta =>
                match checkedSub native_in.amount delta with
                | none => false
                | some remaining_after_claim =>
                  if ¬ coins.any fun o =>
                      decide (o.dest = next.state.beneficiary_dest ∧ o.amount = delta) then
                    false
                  else
                    let expected_remaining_from_state :=
                      next.state.total_amount - next.state.claimed_amount
                    if expected_remaining_from_state ≠ remaining_after_claim then false
                    else
                      match coins.get? next.index with
                      | some stream_coin =>
                        decide (stream_coin.amount = expected_remaining_from_state)
                      | none => false

/-- `stream_contract_satisfied` from the source: decode `now` from the
witness (`none` models a witness that fails to decode as a `u64`), project
the stream states, and classify by arity: (0 in, 1 out) is CREATE,
(1 in, 1 out) is CLAIM, anything else is rejected. -/
def stream_contract_satisfied (tx : Transaction) (w : Option Nat) : Bool :=
  match w with
  | none => false
  | some now =>
    match stream_states_in tx, stream_states_out tx with
    | [], [o] => validate_create o tx
    | [i], [o] => validate_claim i o tx now
    | _, _ => false

/-- The beneficiary scriptPubKey used by the source's tests. -/
def benef : List Nat := [0x51, 0x21]

/-- The stream-escrow scriptPubKey used by the source's tests. -/
def streamDest : List Nat := [0x76, 0xa9]

/-- The sample stream of the source's tests: 100 units vesting linearly
between 1000 and 2000. -/
def sampleStream : StreamState :=
  { total_amount := 100, claimed_amount := 0, start_time := 1000,
    end_time := 2000, beneficiary_dest := benef }

/-- A well-formed CREATE transaction for `sampleStream`, escrowing 100. -/
def txCreateOk : Transaction :=
  { ins := [], outs := [some sampleStream], coin_ins := none,
    coin_outs := some [{ amount := 100, dest := streamDest }] }

/-- Predecessor state of the valid-claim test: 20 of 100 already claimed. -/
def prevClaim : StreamState :=
  { total_amount := 100, claimed_amount := 20, start_time := 1000,
    end_time := 2000, beneficiary_dest := benef }

/-- Successor state of the valid-claim test: claimed advances to 60. -/
def nextClaim : StreamState :=
  { total_amount := 100, claimed_amount := 60, start_time := 1000,
    end_time := 2000, beneficiary_dest := benef }

/-- The accepted CLAIM transaction of the source's tests: escrow 80 in,
payout 40 to the beneficiary, remainder 40 at the stream output. -/
def txClaimOk : Transaction :=
  { ins := [some prevClaim], outs := [none, some nextClaim],
    coin_ins := some [{ amount := 80, dest := streamDest }],
    coin_outs := some [{ amount := 40, dest := benef },
                       { amount := 40, dest := streamDest }] }

/-- A transaction carrying no stream state at all: arity (0, 0). -/
def txNoStreams : Transaction :=
  { ins := [], outs := [none], coin_ins := some [],
    coin_outs := some [{ amount := 7, dest := streamDest }] }

/-- Successor state of the folded-payout scenario: 50 of 100 claimed. -/
def nextFolded : StreamState :=
  { total_amount := 100, claimed_amount := 50, start_time := 1000,
    end_time := 2000, beneficiary_dest := benef }

/-- A CLAIM transaction whose single native coin output — the remainder
output at the successor's index 0, locked to the beneficiary — is also the
only record matching the payout check (dest = beneficiary, amount =
delta = remainder = 50). -/
def txFolded : Transaction :=
  { ins := [some sampleStream], outs := [some nextFolded],
    coin_ins := some [{ amount := 100, dest := streamDest }],
    coin_outs := some [{ amount := 50, dest := benef }] }

/-- Predecessor of the inverted-schedule scenario: `start_time = 2000`
is *greater* than `end_time = 1000`. -/
def prevInverted : StreamState :=
  { total_amount := 100, claimed_amount := 0, start_time := 2000,
    end_time := 1000, beneficiary_dest := benef }

/-- Successor of the inverted-schedule scenario: same (inverted) schedule,
all 100 units claimed. -/
def nextInverted : StreamState :=
  { total_amount := 100, claimed_amount := 100, start_time := 2000,
    end_time := 1000, beneficiary_dest := benef }

/-- A CLAIM transaction advancing the inverted-schedule stream, with exact
coin amounts (escrow 100 in, payout 100 to the beneficiary, remainder 0). -/
def txInverted : Transaction :=
  { ins := [some prevInverted], outs := [none, some nextInverted],
    coin_ins := some [{ amount := 100, dest := streamDest }],
    coin_outs := some [{ amount := 100, dest := benef },
                       { amount := 0, dest := streamDest }] }

/-- A stream with 40 of 100 claimed, used for the zero-delta scenario. -/
def prevZero : StreamState :=
  { total_amount := 100, claimed_amount := 40, start_time := 1000,
    end_time := 2000, beneficiary_dest := benef }

/-- An accepted zero-delta CLAIM: the state is unchanged, the escrow of 60
moves across, and a 0-amount payout output to the beneficiary is present. -/
def txZeroDelta : Transaction :=
  { ins := [some prevZero], outs := [none, some prevZero],
    coin_ins := some [{ amount := 60, dest := streamDest }],
    coin_outs := some [{ amount := 0, dest := benef },
                       { amount := 60, dest := streamDest }] }

example :
    StreamState.vested_at
      { total_amount := 100, claimed_amount := 0, start_time := 1000,
        end_time := 2000, beneficiary_dest := [0x51, 0x21] } 1500 = 50 := by
  decide

/-- Peeling one early-return guard: an `if c then false else e` chain equals
`true` only when the guard is false and the rest succeeds. -/
theorem guard_elim {c : Prop} [Decidable c] {e : Bool}
    (h : (if c then false else e) = true) : ¬ c ∧ e = true := by
  by_cases hc : c
  · rw [if_pos hc] at h
    exact absurd h Bool.false_ne_true
  · rw [if_neg hc] at h
    exact ⟨hc, h⟩

/-- A successful `checkedSub` means no underflow, and the value is the
truncated subtraction. -/
theorem checkedSub_some {a b v : Nat} (h : checkedSub a b = some v) :
    b ≤ a ∧ v = a - b := by
  unfold checkedSub at h
  by_cases hc : b ≤ a
  · rw [if_pos hc] at h
    exact ⟨hc, (Option.some.inj h).symm⟩
  · rw [if_neg hc] at h
    exact absurd h (by simp)

/-- Everything a successful `validate_claim` guarantees, in source order:
the schedule bounds, the immutability checks, the monotonicity and vesting
bounds, and the coin-conservation facts. -/
theorem validate_claim_facts
    (prev : IndexedInputStreamState) (next : IndexedStreamState)
    (tx : Transaction) (now : Nat)
    (h : validate_claim prev next tx now = true) :
    prev.state.start_time ≤ now ∧
    next.state.total_amount = prev.state.total_amount ∧
    next.state.start_time = prev.state.start_time ∧
    next.state.end_time = prev.state.end_time ∧
    prev.state.claimed_amount ≤ next.state.claimed_amount ∧
    next.state.claimed_amount ≤ next.state.total_amount ∧
    next.state.claimed_amount ≤ prev.state.vested_at now ∧
    prev.state.beneficiary_dest = next.state.beneficiary_dest ∧
    next.state.beneficiary_dest ≠ [] ∧
    ∃ cins couts ni sc,
      coin_ins_required tx = some cins ∧
      coin_outs_required tx = some couts ∧
      cins.get? prev.index = some ni ∧
      ni.amount = prev.state.total_amount - prev.state.claimed_amount ∧
      (∃ o ∈ couts, o.dest = next.state.beneficiary_dest ∧
        o.amount = next.state.claimed_amount - prev.state.claimed_amount) ∧
      couts.get? next.index = some sc ∧
      sc.amount = next.state.total_amount - next.state.claimed_amount := by
  unfold validate_claim at h
  obtain ⟨h1, h⟩ := guard_elim h
  obtain ⟨h2, h⟩ := guard_elim h
  obtain ⟨h3, h⟩ := guard_elim h
  obtain ⟨h4, h⟩ := guard_elim h
  obtain ⟨h5, h⟩ := guard_elim h
  obtain ⟨h6, h⟩ := guard_elim h
  obtain ⟨h7, h⟩ := guard_elim h
  obtain ⟨h8, h⟩ := guard_elim h
  cases hci : coin_ins_required tx with
  | none => rw [hci] at h; exact absurd h Bool.false_ne_true
  | some cins =>
  simp only [hci] at h
  cases hco : coin_outs_required tx with
  | none => rw [hco] at h; exact absurd h Bool.false_ne_true
  | some couts =>
  simp only [hco] at h
  cases hps : checkedSub prev.state.total_amount prev.state.claimed_amount with
  | none => rw [hps] at h; exact absurd h Bool.false_ne_true
  | some prev_remaining =>
  simp only [hps] at h
  obtain ⟨hple, hpv⟩ := checkedSub_some hps
  cases hni : cins.get? prev.index with
  | none => rw [hni] at h; exact absurd h Bool.false_ne_true
  | some ni =>
  simp only [hni] at h
  obtain ⟨h9, h⟩ := guard_elim h
  cases hd : checkedSub next.state.claimed_amount prev.state.claimed_amount with
  | none => rw [hd] at h; exact absurd h Bool.false_ne_true
  | some delta =>
  simp only [hd] at h
  obtain ⟨hdle, hdv⟩ := checkedSub_some hd
  cases hr : checkedSub ni.amount delta with
  | none => rw [hr] at h; exact absurd h Bool.false_ne_true
  | some remaining_after_claim =>
  simp only [hr] at h
  obtain ⟨h10, h⟩ := guard_elim h
  obtain ⟨h11, h⟩ := guard_elim h
  cases hsc : couts.get? next.index with
  | none => rw [hsc] at h; exact absurd h Bool.false_ne_true
  | some sc =>
  simp only [hsc] at h
  have hscv : sc.amount = next.state.total_amount - next.state.claimed_amount :=
    of_decide_eq_true h
  have hpay : ∃ o ∈ couts, o.dest = next.state.beneficiary_dest ∧ o.amount = delta := by
    have hany := not_not.mp h10
    rw [List.any_eq_true] at hany
    obtain ⟨o, ho, hop⟩ := hany
    exact ⟨o, ho, of_decide_eq_true hop⟩
  obtain ⟨h3a, h3b⟩ := not_or.mp h3
  refine ⟨Nat.le_of_not_lt h1, not_ne_iff.mp h2, not_ne_iff.mp h3a, not_ne_iff.mp h3b,
    Nat.le_of_not_lt h4, Nat.le_of_not_lt h5, Nat.le_of_not_lt h6,
    not_ne_iff.mp h7, h8, cins, couts, ni, sc, rfl, rfl, hni, ?_, ?_, hsc, hscv⟩
  · rw [not_ne_iff.mp h9, hpv]
  · rw [hdv] at hpay
    exact hpay

/-- C2 — For a `now` strictly inside the schedule, `vested_at` divides the
64-bit *saturating* product `min (total_amount * elapsed) (2^64 - 1)` by the
duration; whenever that product fits in 64 bits the result is the exact
floor of `total_amount * elapsed / duration`, but an overflowing product is
saturated (truncated to `2^64 - 1`) before the division, not widened. -/
theorem vested_at_interior (s : StreamState) (now : Nat)
    (h1 : s.start_time < now) (h2 : now < s.end_time) :
    s.vested_at now =
      min (s.total_amount * (now - s.start_time)) (2 ^ 64 - 1) /
        (s.end_time - s.start_time) ∧
    (s.total_amount * (now - s.start_time) ≤ 2 ^ 64 - 1 →
      s.vested_at now =
        s.total_amount * (now - s.start_time) / (s.end_time - s.start_time)) := by
  have hv : s.vested_at now =
      min (s.total_amount * (now - s.start_time)) (2 ^ 64 - 1) /
        (s.end_time - s.start_time) := by
    unfold StreamState.vested_at satMul U64_MAX
    rw [if_neg (by omega), if_neg (by omega)]
  refine ⟨hv, fun hle => ?_⟩
  rw [hv, min_eq_left hle]

/-- C2 witness — a concrete interior point where the product fits in 64
bits and the exact linear formula is obtained. -/
theorem vested_at_interior_witness :
    (1000 < 1500 ∧ 1500 < 2000) ∧
    StreamState.vested_at
      { total_amount := 100, claimed_amount := 0, start_time := 1000,
        end_time := 2000, beneficiary_dest := [0x51, 0x21] } 1500 =
      min (100 * 500) (2 ^ 64 - 1) / 1000 :=
  ⟨⟨by decide, by decide⟩,
    (vested_at_interior
      { total_amount := 100, claimed_amount := 0, start_time := 1000,
        end_time := 2000, beneficiary_dest := [0x51, 0x21] } 1500
      (by decide) (by decide)).1⟩

/-- C2 counterexample — with `total_amount = 2^64 - 1` and an elapsed time
of 2 over a duration of 4, the product overflows 64 bits; the code
saturates it to `2^64 - 1` before dividing, so the result differs from the
claimed exact `floor(total_amount * elapsed / duration)`. -/
theorem vested_at_overflow_truncates :
    (0 < 2 ∧ 2 < 4) ∧
    StreamState.vested_at
        { total_amount := 2 ^ 64 - 1, claimed_amount := 0, start_time := 0,
          end_time := 4, beneficiary_dest := [0x51] } 2 ≠
      (2 ^ 64 - 1) * (2 - 0) / (4 - 0) := by
  refine ⟨⟨by decide, by decide⟩, ?_⟩
  unfold StreamState.vested_at satMul U64_MAX
  norm_num

/-- C4 — for a fixed state with `start_time < end_time`, `vested_at` is
monotonically non-decreasing in `now`, is 0 at `start_time`, and is
`total_amount` at `end_time`. -/
theorem vested_at_monotone_bounds (s : StreamState) (n1 n2 : Nat)
    (hse : s.start_time < s.end_time) (h12 : n1 ≤ n2) :
    s.vested_at n1 ≤ s.vested_at n2 ∧
    s.vested_at s.start_time = 0 ∧
    s.vested_at s.end_time = s.total_amount := by
  have hdur : 0 < s.end_time - s.start_time := by omega
  refine ⟨?_, ?_, ?_⟩
  · unfold StreamState.vested_at
    by_cases ha : n1 ≤ s.start_time
    · rw [if_pos ha]
      exact Nat.zero_le _
    rw [if_neg ha]
    by_cases hb : s.end_time ≤ n1
    · rw [if_pos hb, if_neg (by omega), if_pos (by omega)]
    rw [if_neg hb, if_neg (by omega)]
    by_cases hd : s.end_time ≤ n2
    · rw [if_pos hd]
      refine Nat.le_trans (Nat.div_le_div_right (min_le_left _ _))
        (Nat.div_le_of_le_mul' ?_)
      calc s.total_amount * (n1 - s.start_time)
          ≤ s.total_amount * (s.end_time - s.start_time) :=
            Nat.mul_le_mul (le_refl _) (by omega)
        _ = (s.end_time - s.start_time) * s.total_amount := Nat.mul_comm _ _
    · rw [if_neg hd]
      exact Nat.div_le_div_right
        (min_le_min (Nat.mul_le_mul (le_refl _) (by omega)) (le_refl _))
  · unfold StreamState.vested_at
    rw [if_pos (le_refl _)]
  · unfold StreamState.vested_at
    rw [if_neg (by omega), if_pos (le_refl _)]

/-- C4 witness — the sample stream of the source tests: between 1000 and
2000, vesting 100 units, evaluated at 1200 and 1700. -/
theorem vested_at_monotone_bounds_witness :
    (1000 < 2000 ∧ 1200 ≤ 1700) ∧
    (StreamState.vested_at
        { total_amount := 100, claimed_amount := 0, start_time := 1000,
          end_time := 2000, beneficiary_dest := [0x51, 0x21] } 1200 ≤
      StreamState.vested_at
        { total_amount := 100, claimed_amount := 0, start_time := 1000,
          end_time := 2000, beneficiary_dest := [0x51, 0x21] } 1700 ∧
    StreamState.vested_at
        { total_amount := 100, claimed_amount := 0, start_time := 1000,
          end_time := 2000, beneficiary_dest := [0x51, 0x21] } 1000 = 0 ∧
    StreamState.vested_at
        { total_amount := 100, claimed_amount := 0, start_time := 1000,
          end_time := 2000, beneficiary_dest := [0x51, 0x21] } 2000 = 100) :=
  ⟨⟨by decide, by decide⟩,
    vested_at_monotone_bounds
      { total_amount := 100, claimed_amount := 0, start_time := 1000,
        end_time := 2000, beneficiary_dest := [0x51, 0x21] } 1200 1700
      (by decide) (by decide)⟩

/-- Shared characterization of `validate_create`: acceptance is equivalent
to the conjunction of the five CREATE checks, over a present,
length-matching native-coin output list. -/
theorem validate_create_char (out : IndexedStreamState) (tx : Transaction) :
    validate_create out tx = true ↔
      ∃ couts, coin_outs_required tx = some couts ∧
        0 < out.state.total_amount ∧
        out.state.start_time < out.state.end_time ∧
        out.state.claimed_amount = 0 ∧
        out.state.beneficiary_dest ≠ [] ∧
        ∃ sc, couts.get? out.index = some sc ∧
          sc.amount = out.state.total_amount := by
  constructor
  · intro h
    unfold validate_create at h
    cases hco : coin_outs_required tx with
    | none => rw [hco] at h; exact absurd h Bool.false_ne_true
    | some couts =>
      simp only [hco] at h
      obtain ⟨h1, h⟩ := guard_elim h
      obtain ⟨h2, h⟩ := guard_elim h
      obtain ⟨h3, h⟩ := guard_elim h
      obtain ⟨h4, h⟩ := guard_elim h
      cases hsc : couts.get? out.index with
      | none => rw [hsc] at h; exact absurd h Bool.false_ne_true
      | some sc =>
        simp only [hsc] at h
        exact ⟨couts, rfl, by omega, by omega, not_ne_iff.mp h3, h4, sc, hsc,
          of_decide_eq_true h⟩
  · rintro ⟨couts, hco, h1, h2, h3, h4, sc, hsc, hamt⟩
    unfold validate_create
    rw [hco]
    show (if out.state.total_amount = 0 then false
      else if out.state.end_time ≤ out.state.start_time then false
      else if out.state.claimed_amount ≠ 0 then false
      else if out.state.beneficiary_dest = [] then false
      else
        match couts.get? out.index with
        | some stream_coin => decide (stream_coin.amount = out.state.total_amount)
        | none => false) = true
    rw [if_neg (by omega), if_neg (by omega), if_neg (not_ne_iff.mpr h3),
      if_neg h4, hsc]
    exact decide_eq_true hamt

/-- C3 — a CREATE transaction is accepted iff `total_amount > 0`,
`start_time < end_time`, `claimed_amount = 0`, the beneficiary destination
is non-empty, and the declared native coin at the stream output's index
(present, in a list whose length matches the ledger outputs) carries
exactly `total_amount`. -/
theorem create_accepted_iff (out : IndexedStreamState) (tx : Transaction) :
    validate_create out tx = true ↔
      ∃ couts, coin_outs_required tx = some couts ∧
        0 < out.state.total_amount ∧
        out.state.start_time < out.state.end_time ∧
        out.state.claimed_amount = 0 ∧
        out.state.beneficiary_dest ≠ [] ∧
        ∃ sc, couts.get? out.index = some sc ∧
          sc.amount = out.state.total_amount :=
  validate_create_char out tx

example : validate_claim { state := prevClaim, index := 0 }
    { state := nextClaim, index := 1 } txClaimOk 1800 = true := by decide

example : stream_contract_satisfied txCreateOk (some 5) = true := by decide

/-- C1 — whenever `validate_claim` accepts, the native coin consumed at the
input's index carries exactly `prev.total_amount - prev.claimed_amount`,
the claim delta is `next.claimed_amount - prev.claimed_amount` (the
subtraction does not underflow), some native coin output pays exactly that
delta to `next.beneficiary_dest`, and the native coin at the successor
output's index carries exactly `next.total_amount - next.claimed_amount`. -/
theorem claim_conservation
    (prev : IndexedInputStreamState) (next : IndexedStreamState)
    (tx : Transaction) (now : Nat)
    (h : validate_claim prev next tx now = true) :
    prev.state.claimed_amount ≤ next.state.claimed_amount ∧
    ∃ cins couts ni sc,
      coin_ins_required tx = some cins ∧
      coin_outs_required tx = some couts ∧
      cins.get? prev.index = some ni ∧
      ni.amount = prev.state.total_amount - prev.state.claimed_amount ∧
      (∃ o ∈ couts, o.dest = next.state.beneficiary_dest ∧
        o.amount = next.state.claimed_amount - prev.state.claimed_amount) ∧
      couts.get? next.index = some sc ∧
      sc.amount = next.state.total_amount - next.state.claimed_amount := by
  obtain ⟨-, -, -, -, h5, -, -, -, -, rest⟩ := validate_claim_facts prev next tx now h
  exact ⟨h5, rest⟩

/-- C1 witness — the accepted CLAIM of the source's tests satisfies the
conservation facts. -/
theorem claim_conservation_witness :
    validate_claim { state := prevClaim, index := 0 }
      { state := nextClaim, index := 1 } txClaimOk 1800 = true ∧
    (prevClaim.claimed_amount ≤ nextClaim.claimed_amount ∧
    ∃ cins couts ni sc,
      coin_ins_required txClaimOk = some cins ∧
      coin_outs_required txClaimOk = some couts ∧
      cins.get? 0 = some ni ∧
      ni.amount = prevClaim.total_amount - prevClaim.claimed_amount ∧
      (∃ o ∈ couts, o.dest = nextClaim.beneficiary_dest ∧
        o.amount = nextClaim.claimed_amount - prevClaim.claimed_amount) ∧
      couts.get? 1 = some sc ∧
      sc.amount = nextClaim.total_amount - nextClaim.claimed_amount) :=
  ⟨by decide,
    claim_conservation { state := prevClaim, index := 0 }
      { state := nextClaim, index := 1 } txClaimOk 1800 (by decide)⟩

/-- C5 — a CLAIM whose successor claims more than has vested at the witness
time, or whose claimed amount decreases, is rejected, for every
transaction. -/
theorem claim_rejects_overclaim_and_decrease
    (prev : IndexedInputStreamState) (next : IndexedStreamState)
    (tx : Transaction) (now : Nat)
    (h : prev.state.vested_at now < next.state.claimed_amount ∨
         next.state.claimed_amount < prev.state.claimed_amount) :
    validate_claim prev next tx now = false := by
  cases hb : validate_claim prev next tx now with
  | false => rfl
  | true =>
    obtain ⟨-, -, -, -, h5, -, h6, -, -, -⟩ := validate_claim_facts prev next tx now hb
    omega

/-- C5 witness — claiming 60 of the sample stream at time 1500 (vested: 50)
is rejected, as in the source's over-vesting test. -/
theorem claim_rejects_overclaim_witness :
    (StreamState.vested_at sampleStream 1500 <
      ({ total_amount := 100, claimed_amount := 60, start_time := 1000,
         end_time := 2000, beneficiary_dest := benef } : StreamState).claimed_amount ∨
      ({ total_amount := 100, claimed_amount := 60, start_time := 1000,
         end_time := 2000, beneficiary_dest := benef } : StreamState).claimed_amount <
        sampleStream.claimed_amount) ∧
    validate_claim { state := sampleStream, index := 0 }
      { state := { total_amount := 100, claimed_amount := 60, start_time := 1000,
                   end_time := 2000, beneficiary_dest := benef }, index := 1 }
      txClaimOk 1500 = false :=
  ⟨Or.inl (by decide),
    claim_rejects_overclaim_and_decrease { state := sampleStream, index := 0 }
      { state := { total_amount := 100, claimed_amount := 60, start_time := 1000,
                   end_time := 2000, beneficiary_dest := benef }, index := 1 }
      txClaimOk 1500 (Or.inl (by decide))⟩

/-- C6 — a CLAIM whose successor changes `total_amount`, `start_time`,
`end_time`, or `beneficiary_dest` is rejected, regardless of the coin
amounts and the witness time. -/
theorem claim_rejects_mutation
    (prev : IndexedInputStreamState) (next : IndexedStreamState)
    (tx : Transaction) (now : Nat)
    (h : next.state.total_amount ≠ prev.state.total_amount ∨
         next.state.start_time ≠ prev.state.start_time ∨
         next.state.end_time ≠ prev.state.end_time ∨
         next.state.beneficiary_dest ≠ prev.state.beneficiary_dest) :
    validate_claim prev next tx now = false := by
  cases hb : validate_claim prev next tx now with
  | false => rfl
  | true =>
    obtain ⟨-, h2, h3, h4, -, -, -, h8, -, -⟩ := validate_claim_facts prev next tx now hb
    rcases h with h | h | h | h
    · exact absurd h2 h
    · exact absurd h3 h
    · exact absurd h4 h
    · exact absurd h8.symm h

/-- C6 witness — a successor that moves `start_time` from 1000 to 1100 is
rejected even with otherwise exact coin amounts. -/
theorem claim_rejects_mutation_witness :
    (({ total_amount := 100, claimed_amount := 60, start_time := 1100,
        end_time := 2000, beneficiary_dest := benef } : StreamState).total_amount ≠
        prevClaim.total_amount ∨
      ({ total_amount := 100, claimed_amount := 60, start_time := 1100,
         end_time := 2000, beneficiary_dest := benef } : StreamState).start_time ≠
        prevClaim.start_time ∨
      ({ total_amount := 100, claimed_amount := 60, start_time := 1100,
         end_time := 2000, beneficiary_dest := benef } : StreamState).end_time ≠
        prevClaim.end_time ∨
      ({ total_amount := 100, claimed_amount := 60, start_time := 1100,
         end_time := 2000, beneficiary_dest := benef } : StreamState).beneficiary_dest ≠
        prevClaim.beneficiary_dest) ∧
    validate_claim { state := prevClaim, index := 0 }
      { state := { total_amount := 100, claimed_amount := 60, start_time := 1100,
                   end_time := 2000, beneficiary_dest := benef }, index := 1 }
      txClaimOk 1800 = false :=
  ⟨Or.inr (Or.inl (by decide)),
    claim_rejects_mutation { state := prevClaim, index := 0 }
      { state := { total_amount := 100, claimed_amount := 60, start_time := 1100,
                   end_time := 2000, beneficiary_dest := benef }, index := 1 }
      txClaimOk 1800 (Or.inr (Or.inl (by decide)))⟩

/-- C7 (amended) — for every accepted CLAIM a native coin output paying
exactly `delta = next.claimed_amount - prev.claimed_amount` to
`next.beneficiary_dest` exists at *some* index; the code quantifies over
all coin outputs, so this output may coincide with the remainder output at
`next.index` — distinctness is not enforced. -/
theorem claim_payout_exists_any_index
    (prev : IndexedInputStreamState) (next : IndexedStreamState)
    (tx : Transaction) (now : Nat) (couts : List NativeOutput)
    (h : validate_claim prev next tx now = true)
    (hco : coin_outs_required tx = some couts) :
    ∃ o ∈ couts, o.dest = next.state.beneficiary_dest ∧
      o.amount = next.state.claimed_amount - prev.state.claimed_amount := by
  obtain ⟨-, -, -, -, -, -, -, -, -, cins, couts', ni, sc, -, hco', -, -, hpay, -, -⟩ :=
    validate_claim_facts prev next tx now h
  rw [hco] at hco'
  cases Option.some.inj hco'
  exact hpay

/-- C7 counterexample — the payout check is satisfied by the remainder
output itself: `txFolded` has exactly one coin output, the remainder at
the successor's index 0, and the validator still accepts at time 1500
(delta = 50, remainder = 50, destination = beneficiary). So the payout is
not required to be a distinct output, and a transaction whose only
matching coin record is the remainder output is accepted, not rejected. -/
theorem claim_payout_folded_into_remainder_accepted :
    stream_contract_satisfied txFolded (some 1500) = true ∧
    txFolded.coin_outs = some [{ amount := 50, dest := benef }] ∧
    stream_states_out txFolded = [{ state := nextFolded, index := 0 }] := by
  decide

/-- C7 witness — the accepted CLAIM of the source's tests has a payout
output of exactly delta = 40 to the beneficiary. -/
theorem claim_payout_exists_witness :
    validate_claim { state := prevClaim, index := 0 }
      { state := nextClaim, index := 1 } txClaimOk 1800 = true ∧
    coin_outs_required txClaimOk =
      some [{ amount := 40, dest := benef }, { amount := 40, dest := streamDest }] ∧
    ∃ o ∈ [({ amount := 40, dest := benef } : NativeOutput),
           { amount := 40, dest := streamDest }],
      o.dest = nextClaim.beneficiary_dest ∧
      o.amount = nextClaim.claimed_amount - prevClaim.claimed_amount :=
  ⟨by decide, by decide,
    claim_payout_exists_any_index { state := prevClaim, index := 0 }
      { state := nextClaim, index := 1 } txClaimOk 1800
      [{ amount := 40, dest := benef }, { amount := 40, dest := streamDest }]
      (by decide) (by decide)⟩

/-- C8 (amended) — an accepted CREATE's output state satisfies all three
invariants (`claimed_amount ≤ total_amount`, `start_time < end_time`,
non-empty beneficiary); an accepted CLAIM's output state satisfies
`claimed_amount ≤ total_amount` and non-empty beneficiary, and carries
`start_time`/`end_time` unchanged from the consumed input state —
`start_time < end_time` is not re-checked on CLAIM, so on that path it is
assumed of the input rather than enforced. -/
theorem validator_output_invariants
    (out : IndexedStreamState) (prev : IndexedInputStreamState)
    (next : IndexedStreamState) (txc txl : Transaction) (now : Nat)
    (hc : validate_create out txc = true)
    (hl : validate_claim prev next txl now = true) :
    (out.state.claimed_amount ≤ out.state.total_amount ∧
     out.state.start_time < out.state.end_time ∧
     out.state.beneficiary_dest ≠ []) ∧
    (next.state.claimed_amount ≤ next.state.total_amount ∧
     next.state.beneficiary_dest ≠ [] ∧
     next.state.start_time = prev.state.start_time ∧
     next.state.end_time = prev.state.end_time) := by
  obtain ⟨couts, -, h1, h2, h3, h4, -⟩ := (validate_create_char out txc).mp hc
  obtain ⟨-, -, h3', h4', -, h6, -, -, h9, -⟩ :=
    validate_claim_facts prev next txl now hl
  exact ⟨⟨by omega, h2, h4⟩, h6, h9, h3', h4'⟩

/-- C8 counterexample — the CLAIM path never checks
`start_time < end_time`: the validator accepts `txInverted` at time 2001
even though its surviving output state has `end_time < start_time`, so the
`start_time < end_time` invariant is assumed of the input there, not
enforced on every accepted output. -/
theorem claim_accepts_inverted_schedule :
    stream_contract_satisfied txInverted (some 2001) = true ∧
    stream_states_out txInverted = [{ state := nextInverted, index := 1 }] ∧
    nextInverted.end_time < nextInverted.start_time := by
  decide

/-- C8 witness — the invariants hold for the accepted CREATE and CLAIM of
the source's tests. -/
theorem validator_output_invariants_witness :
    validate_create { state := sampleStream, index := 0 } txCreateOk = true ∧
    validate_claim { state := prevClaim, index := 0 }
      { state := nextClaim, index := 1 } txClaimOk 1800 = true ∧
    ((sampleStream.claimed_amount ≤ sampleStream.total_amount ∧
      sampleStream.start_time < sampleStream.end_time ∧
      sampleStream.beneficiary_dest ≠ []) ∧
     (nextClaim.claimed_amount ≤ nextClaim.total_amount ∧
      nextClaim.beneficiary_dest ≠ [] ∧
      nextClaim.start_time = prevClaim.start_time ∧
      nextClaim.end_time = prevClaim.end_time)) :=
  ⟨by decide, by decide,
    validator_output_invariants { state := sampleStream, index := 0 }
      { state := prevClaim, index := 0 } { state := nextClaim, index := 1 }
      txCreateOk txClaimOk 1800 (by decide) (by decide)⟩

/-- C9 — classification is purely by the counts of projected stream
states: any arity other than (0 in, 1 out) or (1 in, 1 out) is rejected
unconditionally (also on an undecodable witness), arity (0, 1) runs the
CREATE rule, and arity (1, 1) runs the CLAIM rule with the decoded witness
time. -/
theorem arity_classification (tx : Transaction) (w : Option Nat) :
    (((stream_states_in tx).length, (stream_states_out tx).length) ≠ (0, 1) →
     ((stream_states_in tx).length, (stream_states_out tx).length) ≠ (1, 1) →
     stream_contract_satisfied tx w = false) ∧
    (∀ now o, w = some now → stream_states_in tx = [] →
      stream_states_out tx = [o] →
      stream_contract_satisfied tx w = validate_create o tx) ∧
    (∀ now i o, w = some now → stream_states_in tx = [i] →
      stream_states_out tx = [o] →
      stream_contract_satisfied tx w = validate_claim i o tx now) := by
  refine ⟨?_, ?_, ?_⟩
  · intro h01 h11
    unfold stream_contract_satisfied
    cases w with
    | none => rfl
    | some now =>
      cases hin : stream_states_in tx with
      | nil =>
        cases hout : stream_states_out tx with
        | nil => rfl
        | cons o rest =>
          cases rest with
          | nil => exact absurd (by rw [hin, hout]; rfl) h01
          | cons o2 rest2 => rfl
      | cons i irest =>
        cases irest with
        | nil =>
          cases hout : stream_states_out tx with
          | nil => rfl
          | cons o rest =>
            cases rest with
            | nil => exact absurd (by rw [hin, hout]; rfl) h11
            | cons o2 rest2 => rfl
        | cons i2 irest2 => rfl
  · intro now o hw hin hout
    subst hw
    unfold stream_contract_satisfied
    rw [hin, hout]
  · intro now i o hw hin hout
    subst hw
    unfold stream_contract_satisfied
    rw [hin, hout]

/-- C9 witness — a (0, 0) transaction is rejected, the create transaction
is classified CREATE, and the claim transaction is classified CLAIM. -/
theorem arity_classification_witness :
    stream_contract_satisfied txNoStreams (some 5) = false ∧
    stream_contract_satisfied txCreateOk (some 5) =
      validate_create { state := sampleStream, index := 0 } txCreateOk ∧
    stream_contract_satisfied txClaimOk (some 1800) =
      validate_claim { state := prevClaim, index := 0 }
        { state := nextClaim, index := 1 } txClaimOk 1800 :=
  ⟨(arity_classification txNoStreams (some 5)).1 (by decide) (by decide),
   (arity_classification txCreateOk (some 5)).2.1 5
     { state := sampleStream, index := 0 } rfl (by decide) (by decide),
   (arity_classification txClaimOk (some 1800)).2.2 1800
     { state := prevClaim, index := 0 } { state := nextClaim, index := 1 }
     rfl (by decide) (by decide)⟩

/-- C10 — a CLAIM with zero incremental claim
(`next.claimed_amount = prev.claimed_amount`) is accepted only when some
native coin output pays exactly 0 to `next.beneficiary_dest`: the payout
check instantiates to amount 0, so without such a zero-amount output to the
beneficiary the otherwise-valid zero-delta claim is rejected. -/
theorem zero_delta_claim_needs_zero_payout
    (prev : IndexedInputStreamState) (next : IndexedStreamState)
    (tx : Transaction) (now : Nat) (couts : List NativeOutput)
    (h : validate_claim prev next tx now = true)
    (heq : next.state.claimed_amount = prev.state.claimed_amount)
    (hco : coin_outs_required tx = some couts) :
    ∃ o ∈ couts, o.dest = next.state.beneficiary_dest ∧ o.amount = 0 := by
  obtain ⟨-, -, -, -, -, -, -, -, -, cins, couts', ni, sc, -, hco', -, -, hpay, -, -⟩ :=
    validate_claim_facts prev next tx now h
  rw [hco] at hco'
  cases Option.some.inj hco'
  obtain ⟨o, ho, hd, ha⟩ := hpay
  exact ⟨o, ho, hd, by omega⟩

/-- C10 witness — the accepted zero-delta CLAIM indeed carries a 0-amount
payout output to the beneficiary. -/
theorem zero_delta_claim_witness :
    validate_claim { state := prevZero, index := 0 }
      { state := prevZero, index := 1 } txZeroDelta 1500 = true ∧
    prevZero.claimed_amount = prevZero.claimed_amount ∧
    coin_outs_required txZeroDelta =
      some [{ amount := 0, dest := benef }, { amount := 60, dest := streamDest }] ∧
    ∃ o ∈ [({ amount := 0, dest := benef } : NativeOutput),
           { amount := 60, dest := streamDest }],
      o.dest = prevZero.beneficiary_dest ∧ o.amount = 0 :=
  ⟨by decide, rfl, by decide,
    zero_delta_claim_needs_zero_payout { state := prevZero, index := 0 }
      { state := prevZero, index := 1 } txZeroDelta 1500
      [{ amount := 0, dest := benef }, { amount := 60, dest := streamDest }]
      (by decide) rfl (by decide)⟩
